import Mathlib

/-!
Shallow embedding of the PDF splitter microservice (`src/main.py`).

The PDF parsing/writing library (pypdf), the object-storage client (boto3)
and the HTTP framework are external collaborators; they are modelled as
oracles (`PdfLib`, `S3Client`) whose behaviour the endpoint embeddings are
parameterised over.  Python's `base64.b64encode`/`b64decode` are modelled
concretely (they are deterministic pure functions), so that the size /
encoding contract of the inline delivery mode can be stated exactly.

Machine integers do not overflow in the modelled code paths (page counts
and byte lengths are small Python ints, which are unbounded), so `Nat` is
the faithful integer model.
-/

namespace PdfSplitter

/-- Byte buffers are lists of naturals; a well-formed buffer has all
entries below 256. -/
abbrev Bytes := List Nat

/-- The base64 alphabet: sextet value (0..63) to character, as in RFC 4648
(Python's `base64.b64encode` with the standard alphabet). -/
def b64char (v : Nat) : Char :=
  if v < 26 then Char.ofNat (65 + v)
  else if v < 52 then Char.ofNat (71 + v)
  else if v < 62 then Char.ofNat (v - 4)
  else if v = 62 then '+'
  else '/'

/-- Inverse of the base64 alphabet (value of a data character). -/
def b64val (c : Char) : Nat :=
  if 65 ≤ c.toNat ∧ c.toNat ≤ 90 then c.toNat - 65
  else if 97 ≤ c.toNat ∧ c.toNat ≤ 122 then c.toNat - 71
  else if 48 ≤ c.toNat ∧ c.toNat ≤ 57 then c.toNat + 4
  else if c = '+' then 62
  else if c = '/' then 63
  else 0

/-- Standard padded base64 encoding of a byte buffer, modelling
`base64.b64encode(data).decode("utf-8")`. -/
def b64encode : List Nat → List Char
  | [] => []
  | [a] =>
      [b64char (a / 4), b64char (a % 4 * 16), '=', '=']
  | [a, b] =>
      [b64char (a / 4), b64char (a % 4 * 16 + b / 16), b64char (b % 16 * 4), '=']
  | a :: b :: c :: rest =>
      b64char (a / 4) :: b64char (a % 4 * 16 + b / 16) ::
        b64char (b % 16 * 4 + c / 64) :: b64char (c % 64) :: b64encode rest

/-- Standard base64 decoding (on well-formed padded input), modelling
`base64.b64decode`. -/
def b64decode : List Char → List Nat
  | w :: x :: y :: z :: rest =>
      if y = '=' then
        [b64val w * 4 + b64val x / 16]
      else if z = '=' then
        [b64val w * 4 + b64val x / 16, b64val x % 16 * 16 + b64val y / 4]
      else
        (b64val w * 4 + b64val x / 16) :: (b64val x % 16 * 16 + b64val y / 4) ::
          (b64val y % 4 * 64 + b64val z) :: b64decode rest
  | _ => []

theorem b64val_b64char : ∀ v : Nat, v < 64 → b64val (b64char v) = v := by
  decide

theorem b64char_ne_pad : ∀ v : Nat, v < 64 → b64char v ≠ '=' := by
  decide

theorem b64_roundtrip : ∀ b : List Nat, (∀ x ∈ b, x < 256) →
    b64decode (b64encode b) = b
  | [], _ => rfl
  | [a], h => by
      have ha : a < 256 := h a (by simp)
      have h1 : a / 4 < 64 := by omega
      have h2 : a % 4 * 16 < 64 := by omega
      simp only [b64encode, b64decode, if_true]
      rw [b64val_b64char _ h1, b64val_b64char _ h2]
      have : a % 4 * 16 / 16 = a % 4 := by omega
      rw [this]
      congr 1
      omega
  | [a, b], h => by
      have ha : a < 256 := h a (by simp)
      have hb : b < 256 := h b (by simp)
      have h1 : a / 4 < 64 := by omega
      have h2 : a % 4 * 16 + b / 16 < 64 := by omega
      have h3 : b % 16 * 4 < 64 := by omega
      simp only [b64encode, b64decode]
      rw [if_neg (b64char_ne_pad _ h3)]
      simp only [if_true]
      rw [b64val_b64char _ h1, b64val_b64char _ h2, b64val_b64char _ h3]
      have e1 : a / 4 * 4 + (a % 4 * 16 + b / 16) / 16 = a := by omega
      have e2 : (a % 4 * 16 + b / 16) % 16 * 16 + b % 16 * 4 / 4 = b := by omega
      rw [e1, e2]
  | a :: b :: c :: rest, h => by
      have ha : a < 256 := h a (by simp)
      have hb : b < 256 := h b (by simp)
      have hc : c < 256 := h c (by simp)
      have h1 : a / 4 < 64 := by omega
      have h2 : a % 4 * 16 + b / 16 < 64 := by omega
      have h3 : b % 16 * 4 + c / 64 < 64 := by omega
      have h4 : c % 64 < 64 := by omega
      have ih := b64_roundtrip rest (fun x hx => h x (by simp [hx]))
      simp only [b64encode, b64decode]
      rw [if_neg (b64char_ne_pad _ h3), if_neg (b64char_ne_pad _ h4)]
      rw [b64val_b64char _ h1, b64val_b64char _ h2, b64val_b64char _ h3,
        b64val_b64char _ h4]
      have e1 : a / 4 * 4 + (a % 4 * 16 + b / 16) / 16 = a := by omega
      have e2 : (a % 4 * 16 + b / 16) % 16 * 16 + (b % 16 * 4 + c / 64) / 4 = b := by
        omega
      have e3 : (b % 16 * 4 + c / 64) % 4 * 64 + c % 64 = c := by omega
      rw [e1, e2, e3]
      simp [ih]

theorem b64encode_length : ∀ b : List Nat,
    (b64encode b).length = 4 * ((b.length + 2) / 3)
  | [] => by simp [b64encode]
  | [_] => by simp [b64encode]
  | [_, _] => by simp [b64encode]
  | _ :: _ :: _ :: rest => by
      simp only [b64encode, List.length_cons, b64encode_length rest]
      omega

theorem b64encode_length_ne (b : List Nat) (h : b ≠ []) :
    (b64encode b).length ≠ b.length := by
  rw [b64encode_length]
  have : b.length ≠ 0 := by
    intro h0
    exact h (List.length_eq_zero.mp h0)
  omega

/-- An HTTP error response: `fastapi.HTTPException(status_code, detail)`. -/
structure HTTPError where
  status : Nat
  detail : String
deriving DecidableEq

/-- An exception propagating inside a Python `try` block: either a
`fastapi.HTTPException` (whose `str()` is `"{status}: {detail}"`) or any
other exception, carrying its string representation. -/
inductive PyExc where
  | http (e : HTTPError)
  | exc (msg : String)
deriving DecidableEq

/-- Python `str(e)` for an exception value (starlette's `HTTPException`
prints as `"{status_code}: {detail}"`). -/
def pyExcStr : PyExc → String
  | .http e => toString e.status ++ ": " ++ e.detail
  | .exc m => m

/-- One entry of the inline `files` array (model of `PageData`). -/
structure PageData where
  page_number : Nat
  filename : String
  data : String
  size : Nat
deriving DecidableEq

/-- Model of `SplitPDFResponse` (success body of `POST /split-pdf`). -/
structure SplitPDFResponse where
  status : String
  original_filename : String
  total_pages : Nat
  pages_split : Bool
  files : List PageData
deriving DecidableEq

/-- Model of `S3SplitPDFResponse` (success body of `POST /split-pdf-from-s3`). -/
structure S3SplitPDFResponse where
  status : String
  original_s3_location : String
  total_pages : Nat
  pages_split : Bool
  files : List PageData
  s3_output_files : Option (List String)
deriving DecidableEq

/-- Oracle for the pypdf collaborator over an abstract parsed-document type
`Doc`: `parse` models the `PdfReader` constructor (which may raise),
`metadata` models the `.metadata` property access (which may raise),
`pagesLen` models `len(reader.pages)`, and `extractPage` models
`PdfWriter().add_page(reader.pages[i]); write(buf)` serialising page `i`
to bytes (which may raise).  Errors carry `str(e)`. -/
structure PdfLib (Doc : Type) where
  parse : Bytes → Except String Doc
  metadata : Doc → Except String Unit
  pagesLen : Doc → Nat
  extractPage : Doc → Nat → Except String Bytes

/-- Error classification of an S3 `ClientError` by its error code. -/
inductive S3Err where
  | noSuchKey
  | accessDenied
  | other (msg : String)
deriving DecidableEq

/-- Oracle for the boto3 S3 client: `getObject` models
`get_object(...)["Body"].read()`, `putObject` models `put_object(...)`. -/
structure S3Client where
  getObject : String → String → Except S3Err Bytes
  putObject : String → String → Bytes → Except String Unit

/-- Model of the `S3PDFRequest` body.  The source field `output_prefix`
is here named `output_pre`. -/
structure S3PDFRequest where
  bucket : String
  key : String
  save_to_s3 : Bool := false
  output_pre : Option String := none
  output_bucket : Option String := none
deriving DecidableEq

/-- ASCII lower-casing of one character, modelling Python's `str.lower`
on the ASCII range (the only range the `.pdf` extension checks exercise). -/
def lowerChar (c : Char) : Char :=
  if 65 ≤ c.toNat ∧ c.toNat ≤ 90 then Char.ofNat (c.toNat + 32) else c

/-- `s.lower().endswith(".pdf")` from the endpoint validations. -/
def lowerEndsWithPdf (s : String) : Bool :=
  List.isSuffixOf ['.', 'p', 'd', 'f'] (s.data.map lowerChar)

/-- Python's `str.split(sep)` for a one-character separator: `""` splits
to `[""]`, and every separator occurrence opens a new field. -/
def splitOnChar (sep : Char) : List Char → List (List Char)
  | [] => [[]]
  | c :: rest =>
      match splitOnChar sep rest with
      | [] => [[c]]
      | h :: t => if c = sep then [] :: h :: t else (c :: h) :: t

/-- Python's `s.replace(".pdf", "")`: remove every (left-to-right,
non-overlapping) occurrence of `".pdf"`. -/
def removeDotPdf : List Char → List Char
  | '.' :: 'p' :: 'd' :: 'f' :: rest => removeDotPdf rest
  | c :: rest => c :: removeDotPdf rest
  | [] => []

/-- `MAX_FILE_SIZE = 50 * 1024 * 1024` from `src/main.py`. -/
def MAX_FILE_SIZE : Nat := 50 * 1024 * 1024

/-- `MAX_PAGES = 500` from `src/main.py`. -/
def MAX_PAGES : Nat := 500

/-- The extension reported in the invalid-file-type detail:
`file.filename.split(".")[-1] if "." in file.filename else "unknown"`. -/
def extOf (s : String) : String :=
  if s.data.contains '.' then String.mk ((splitOnChar '.' s.data).getLastD [])
  else "unknown"

/-- Detail string of the 400 invalid-file-type error. -/
def invalidTypeDetail (s : String) : String :=
  "Invalid file type. Expected PDF, got " ++ extOf s

/-- Detail string of the 422 too-many-pages error. -/
def tooManyPagesDetail (total_pages : Nat) : String :=
  "PDF has too many pages. Pages: " ++ toString total_pages ++
    ", Max: " ++ toString MAX_PAGES

/-- Detail string of the 413 payload-too-large error.  The source
interpolates the sizes with float formatting, which is not modelled; no
claim depends on this text. -/
def tooLargeDetail : String := "File too large"

/-- The accumulator loop of the sequential branch:
`split_files = []` followed by
`for page_num in range(total_pages): split_files.append(await process_page(page_num))`.
A raised exception propagates out of the loop. -/
def seqPagesGo (f : Nat → Except PyExc α) : List Nat → List α → Except PyExc (List α)
  | [], acc => .ok acc
  | i :: rest, acc =>
      match f i with
      | .error e => .error e
      | .ok v => seqPagesGo f rest (acc ++ [v])

/-- Sequential branch over pages `0..n-1`. -/
def seqPages (f : Nat → Except PyExc α) (n : Nat) : Except PyExc (List α) :=
  seqPagesGo f (List.range n) []

/-- The contract of `asyncio.gather(*tasks)` over deterministic tasks:
results are returned in the order the tasks were passed, and a raised
exception propagates. -/
def gatherExcept (f : Nat → Except PyExc α) : List Nat → Except PyExc (List α)
  | [] => .ok []
  | i :: rest =>
      match f i with
      | .error e => .error e
      | .ok v =>
          match gatherExcept f rest with
          | .error e => .error e
          | .ok vs => .ok (v :: vs)

/-- Concurrent branch: `await asyncio.gather(*(process_page(i) for i in range(n)))`. -/
def gatherPages (f : Nat → Except PyExc α) (n : Nat) : Except PyExc (List α) :=
  gatherExcept f (List.range n)

/-- The concurrency scheduler of both endpoints:
`if total_pages > 10: gather else: sequential loop`. -/
def runPages (f : Nat → Except PyExc α) (total_pages : Nat) : Except PyExc (List α) :=
  if total_pages > 10 then gatherPages f total_pages else seqPages f total_pages

/-- Exception disposition of the inline endpoint's `try`/`except`:
`except Exception as e: raise HTTPException(500, f"Error processing PDF: {str(e)}")`.
There is no preceding `except HTTPException: raise` in `split_pdf`, so
`HTTPException`s raised inside the `try` are also converted to 500. -/
def wrapInline (r : Except PyExc α) : Except HTTPError α :=
  match r with
  | .ok v => .ok v
  | .error e => .error { status := 500, detail := "Error processing PDF: " ++ pyExcStr e }

/-- Exception disposition of the S3 endpoint's `try`/`except`:
`except HTTPException: raise` followed by
`except Exception as e: raise HTTPException(500, f"Error processing PDF from S3: {str(e)}")`. -/
def wrapS3 (r : Except PyExc α) : Except HTTPError α :=
  match r with
  | .ok v => .ok v
  | .error (.http e) => .error e
  | .error (.exc m) =>
      .error { status := 500, detail := "Error processing PDF from S3: " ++ m }

/-- The dict returned by the inline endpoint's `process_page` on success. -/
def inlinePageData (page_num : Nat) (pdf_bytes : Bytes) : PageData :=
  { page_number := page_num + 1,
    filename := "page_" ++ toString (page_num + 1) ++ ".pdf",
    data := String.mk (b64encode pdf_bytes),
    size := pdf_bytes.length }

/-- The inline endpoint's `process_page(page_num)`: extract and serialise
one page, base64-encode it, and report the pre-encoding byte length as
`size`.  A pypdf error propagates as a generic exception. -/
def process_page (lib : PdfLib Doc) (pdf_reader : Doc) (page_num : Nat) :
    Except PyExc PageData :=
  match lib.extractPage pdf_reader page_num with
  | .error e => .error (.exc e)
  | .ok pdf_bytes => .ok (inlinePageData page_num pdf_bytes)

/-- The body of `split_pdf`'s `try` block: parse, metadata check, page
count check, then per-page processing and response assembly. -/
def split_pdf_body (lib : PdfLib Doc) (fname : String) (file_content : Bytes) :
    Except PyExc SplitPDFResponse :=
  match lib.parse file_content with
  | .error e => .error (.exc e)
  | .ok pdf_reader =>
      match lib.metadata pdf_reader with
      | .error _ => .error (.http { status := 400, detail := "Corrupted or invalid PDF file" })
      | .ok _ =>
          let total_pages := lib.pagesLen pdf_reader
          if total_pages > MAX_PAGES then
            .error (.http { status := 422, detail := tooManyPagesDetail total_pages })
          else
            match runPages (process_page lib pdf_reader) total_pages with
            | .error e => .error e
            | .ok split_files =>
                .ok { status := "success",
                      original_filename := fname,
                      total_pages := total_pages,
                      pages_split := decide (total_pages > 1),
                      files := split_files }

/-- `POST /split-pdf` (the handler `split_pdf` in `src/main.py`), after
authentication: filename validation, size/emptiness validation, then the
`try` block wrapped by `wrapInline`.  `filename = none` models a missing
filename; Python's `if not file.filename` also treats `""` as missing. -/
def split_pdf (lib : PdfLib Doc) (filename : Option String) (file_content : Bytes) :
    Except HTTPError SplitPDFResponse :=
  match filename with
  | none => .error { status := 400, detail := "No filename provided" }
  | some fname =>
      if fname = "" then
        .error { status := 400, detail := "No filename provided" }
      else if ¬ (lowerEndsWithPdf fname) then
        .error { status := 400, detail := invalidTypeDetail fname }
      else
        let file_size := file_content.length
        if file_size > MAX_FILE_SIZE then
          .error { status := 413, detail := tooLargeDetail }
        else if file_size = 0 then
          .error { status := 400, detail := "Empty file uploaded" }
        else
          wrapInline (split_pdf_body lib fname file_content)

/-- `download_from_s3(bucket, key)` from `src/main.py`: 503 when no client
is configured, 404 on `NoSuchKey`, 403 on `AccessDenied`, 500 on any other
`ClientError`. -/
def download_from_s3 (s3_client : Option S3Client) (bucket key : String) :
    Except HTTPError Bytes :=
  match s3_client with
  | none =>
      .error { status := 503,
               detail := "S3 functionality is not configured. Please set AWS credentials." }
  | some c =>
      match c.getObject bucket key with
      | .ok b => .ok b
      | .error .noSuchKey =>
          .error { status := 404, detail := "File not found: s3://" ++ bucket ++ "/" ++ key }
      | .error .accessDenied =>
          .error { status := 403, detail := "Access denied to s3://" ++ bucket ++ "/" ++ key }
      | .error (.other m) =>
          .error { status := 500, detail := "Error downloading from S3: " ++ m }

/-- `upload_to_s3(bucket, key, data)` from `src/main.py`: 503 when no
client is configured, 500 on a `ClientError`, otherwise the
`s3://bucket/key` location string. -/
def upload_to_s3 (s3_client : Option S3Client) (bucket key : String) (data : Bytes) :
    Except HTTPError String :=
  match s3_client with
  | none =>
      .error { status := 503,
               detail := "S3 functionality is not configured. Please set AWS credentials." }
  | some c =>
      match c.putObject bucket key data with
      | .ok _ => .ok ("s3://" ++ bucket ++ "/" ++ key)
      | .error m => .error { status := 500, detail := "Error uploading to S3: " ++ m }

/-- `request.key.split("/")[-1].replace(".pdf", "")`: the last path segment
of the object key with every occurrence of `".pdf"` removed. -/
def baseFromKey (key : String) : String :=
  String.mk (removeDotPdf ((splitOnChar '/' key.data).getLastD []))

/-- The tuple returned by the S3 endpoint's `process_page`:
`(page_number, page_filename, data_or_None, size, output_key_or_None)`. -/
structure S3PageTuple where
  page_number : Nat
  filename : String
  data : Option String
  size : Nat
  output_key : Option String
deriving DecidableEq

/-- `f"{filename}_page_{page_num + 1}.pdf"` for the S3 endpoint. -/
def s3PageFilename (filename : String) (page_num : Nat) : String :=
  filename ++ "_page_" ++ toString (page_num + 1) ++ ".pdf"

/-- `request.output_bucket or request.bucket`: Python's `or` falls back on
`None` and on the empty string. -/
def resolveOutputBucket (req : S3PDFRequest) : String :=
  match req.output_bucket with
  | none => req.bucket
  | some b => if b = "" then req.bucket else b

/-- `request.output_prefix or ""` (field `output_pre` in this model). -/
def resolveOutputPre (req : S3PDFRequest) : String :=
  match req.output_pre with
  | none => ""
  | some p => p

/-- The S3 endpoint's `process_page(page_num)`: extract and serialise one
page; when `save_to_s3` upload it and return the output key, otherwise
base64-encode it into the tuple.  Exceptions raised by `upload_to_s3` are
`HTTPException`s; pypdf errors are generic exceptions. -/
def s3_process_page (s3_client : Option S3Client) (lib : PdfLib Doc)
    (pdf_reader : Doc) (req : S3PDFRequest) (filename : String) (page_num : Nat) :
    Except PyExc S3PageTuple :=
  match lib.extractPage pdf_reader page_num with
  | .error e => .error (.exc e)
  | .ok pdf_bytes =>
      let size_in_bytes := pdf_bytes.length
      let page_filename := s3PageFilename filename page_num
      if req.save_to_s3 then
        let output_key := resolveOutputPre req ++ page_filename
        match upload_to_s3 s3_client (resolveOutputBucket req) output_key pdf_bytes with
        | .error e => .error (.http e)
        | .ok _ =>
            .ok { page_number := page_num + 1, filename := page_filename,
                  data := none, size := size_in_bytes, output_key := some output_key }
      else
        .ok { page_number := page_num + 1, filename := page_filename,
              data := some (String.mk (b64encode pdf_bytes)),
              size := size_in_bytes, output_key := none }

/-- The comprehension `[r[4] for r in results if r[4]]` (Python keeps only
truthy values, i.e. drops `None` and `""`). -/
def collectOutputKeys (results : List S3PageTuple) : List String :=
  results.filterMap (fun r =>
    match r.output_key with
    | none => none
    | some k => if k = "" then none else some k)

/-- The comprehension building the inline `files` list of the S3 endpoint
from the result tuples (`r[2]` is `None` in save mode; the source then
serialises it as an empty-ish field, but that branch never builds this
list, so `getD ""` is unreachable there). -/
def tuplesToPageData (results : List S3PageTuple) : List PageData :=
  results.map (fun r =>
    { page_number := r.page_number, filename := r.filename,
      data := r.data.getD "", size := r.size })

/-- The body of `split_pdf_from_s3`'s `try` block: download, size check,
parse, metadata check, page count check, per-page processing, response
assembly. -/
def split_pdf_from_s3_body (s3_client : Option S3Client) (lib : PdfLib Doc)
    (req : S3PDFRequest) : Except PyExc S3SplitPDFResponse :=
  match download_from_s3 s3_client req.bucket req.key with
  | .error e => .error (.http e)
  | .ok file_content =>
      let file_size := file_content.length
      if file_size > MAX_FILE_SIZE then
        .error (.http { status := 413, detail := tooLargeDetail })
      else
        match lib.parse file_content with
        | .error e => .error (.exc e)
        | .ok pdf_reader =>
            match lib.metadata pdf_reader with
            | .error _ =>
                .error (.http { status := 400, detail := "Corrupted or invalid PDF file" })
            | .ok _ =>
                let total_pages := lib.pagesLen pdf_reader
                if total_pages > MAX_PAGES then
                  .error (.http { status := 422, detail := tooManyPagesDetail total_pages })
                else
                  let filename := baseFromKey req.key
                  match runPages (s3_process_page s3_client lib pdf_reader req filename)
                      total_pages with
                  | .error e => .error e
                  | .ok results =>
                      if req.save_to_s3 then
                        .ok { status := "success",
                              original_s3_location := "s3://" ++ req.bucket ++ "/" ++ req.key,
                              total_pages := total_pages,
                              pages_split := decide (total_pages > 1),
                              files := [],
                              s3_output_files := some (collectOutputKeys results) }
                      else
                        .ok { status := "success",
                              original_s3_location := "s3://" ++ req.bucket ++ "/" ++ req.key,
                              total_pages := total_pages,
                              pages_split := decide (total_pages > 1),
                              files := tuplesToPageData results,
                              s3_output_files := none }

/-- `POST /split-pdf-from-s3` (the handler `split_pdf_from_s3` in
`src/main.py`), after authentication: configuration check, bucket/key
validation, then the `try` block wrapped by `wrapS3` (which re-raises
`HTTPException`s unchanged). -/
def split_pdf_from_s3 (s3_client : Option S3Client) (lib : PdfLib Doc)
    (req : S3PDFRequest) : Except HTTPError S3SplitPDFResponse :=
  match s3_client with
  | none =>
      .error { status := 503,
               detail := "S3 functionality is not configured. Please set AWS credentials." }
  | some _ =>
      if req.bucket = "" then
        .error { status := 400, detail := "Bucket name is required" }
      else if req.key = "" then
        .error { status := 400, detail := "Object key is required" }
      else if ¬ (lowerEndsWithPdf req.key) then
        .error { status := 400, detail := invalidTypeDetail req.key }
      else
        wrapS3 (split_pdf_from_s3_body s3_client lib req)

/-- A well-behaved parsed document with `n` pages: parsing, metadata and
extraction all succeed, each page serialising to the one-byte buffer `[37]`. -/
def okLib (n : Nat) : PdfLib Unit :=
  { parse := fun _ => .ok (), metadata := fun _ => .ok (),
    pagesLen := fun _ => n, extractPage := fun _ _ => .ok [37] }

/-- A buffer pypdf cannot open: the `PdfReader` constructor raises. -/
def badParseLib : PdfLib Unit :=
  { parse := fun _ => .error "EOF marker not found", metadata := fun _ => .ok (),
    pagesLen := fun _ => 1, extractPage := fun _ _ => .ok [37] }

/-- A document whose `.metadata` access raises a structural error. -/
def badMetaLib : PdfLib Unit :=
  { parse := fun _ => .ok (), metadata := fun _ => .error "metadata error",
    pagesLen := fun _ => 1, extractPage := fun _ _ => .ok [37] }

/-- A document with `n` pages whose page serialisation always raises; used
to observe whether extraction is ever attempted. -/
def noExtractLib (n : Nat) : PdfLib Unit :=
  { parse := fun _ => .ok (), metadata := fun _ => .ok (),
    pagesLen := fun _ => n, extractPage := fun _ _ => .error "extraction attempted" }

/-- pypdf behaviour on a 0-byte buffer: the `PdfReader` constructor raises
`EmptyFileError("Cannot read an empty file")`; otherwise a document with
`n` well-behaved pages. -/
def pypdfLikeLib (n : Nat) : PdfLib Unit :=
  { parse := fun b => if b.isEmpty then .error "Cannot read an empty file" else .ok (),
    metadata := fun _ => .ok (), pagesLen := fun _ => n,
    extractPage := fun _ _ => .ok [37] }

/-- An S3 client whose every object read returns `content` and whose
uploads always succeed. -/
def stubS3 (content : Bytes) : S3Client :=
  { getObject := fun _ _ => .ok content, putObject := fun _ _ _ => .ok () }

theorem seqPagesGo_eq_gatherExcept (f : Nat → Except PyExc α) (l : List Nat)
    (acc : List α) :
    seqPagesGo f l acc = (gatherExcept f l).map (fun vs => acc ++ vs) := by
  induction l generalizing acc with
  | nil => simp [seqPagesGo, gatherExcept, Except.map]
  | cons i rest ih =>
      simp only [seqPagesGo, gatherExcept]
      cases hf : f i with
      | error e => simp [Except.map]
      | ok v =>
          dsimp only
          rw [ih]
          cases gatherExcept f rest with
          | error e => simp [Except.map]
          | ok vs => simp [Except.map]

/-- The sequential loop and the gather fan-out agree on every task family
and page count. -/
theorem seqPages_eq_gatherPages (f : Nat → Except PyExc α) (n : Nat) :
    seqPages f n = gatherPages f n := by
  rw [seqPages, gatherPages, seqPagesGo_eq_gatherExcept]
  cases gatherExcept f (List.range n) <;> simp [Except.map]

theorem gatherExcept_ok (f : Nat → Except PyExc α) (g : Nat → α) :
    ∀ l : List Nat, (∀ i ∈ l, f i = .ok (g i)) →
      gatherExcept f l = .ok (l.map g)
  | [], _ => rfl
  | i :: rest, h => by
      rw [List.map_cons]
      simp only [gatherExcept, h i (by simp)]
      rw [gatherExcept_ok f g rest (fun j hj => h j (by simp [hj]))]

theorem runPages_ok (f : Nat → Except PyExc α) (g : Nat → α) (n : Nat)
    (h : ∀ i, i < n → f i = .ok (g i)) :
    runPages f n = .ok ((List.range n).map g) := by
  have hg := gatherExcept_ok f g (List.range n)
    (fun i hi => h i (List.mem_range.mp hi))
  rw [runPages]
  split
  · exact hg
  · rw [seqPages_eq_gatherPages]
    exact hg

theorem wrapInline_ok_iff (r : Except PyExc α) (v : α) :
    wrapInline r = .ok v ↔ r = .ok v := by
  cases r <;> simp [wrapInline]

theorem wrapS3_ok_iff (r : Except PyExc α) (v : α) :
    wrapS3 r = .ok v ↔ r = .ok v := by
  cases r with
  | ok w => simp [wrapS3]
  | error e => cases e <;> simp [wrapS3]

/-- Full success-path characterisation of the inline endpoint. -/
theorem split_pdf_ok_of_valid (lib : PdfLib Doc) (pdf_reader : Doc)
    (fname : String) (content : Bytes) (N : Nat) (ebytes : Nat → Bytes)
    (hfn : fname ≠ "") (hext : lowerEndsWithPdf fname = true)
    (hsize : content.length ≤ MAX_FILE_SIZE) (hne : content ≠ [])
    (hparse : lib.parse content = .ok pdf_reader)
    (hmeta : lib.metadata pdf_reader = .ok ())
    (hpages : lib.pagesLen pdf_reader = N) (hmax : N ≤ MAX_PAGES)
    (hex : ∀ i, i < N → lib.extractPage pdf_reader i = .ok (ebytes i)) :
    split_pdf lib (some fname) content =
      .ok { status := "success", original_filename := fname, total_pages := N,
            pages_split := decide (N > 1),
            files := (List.range N).map (fun i => inlinePageData i (ebytes i)) } := by
  have hlen0 : content.length ≠ 0 := fun h0 => hne (List.length_eq_zero.mp h0)
  have hrun : runPages (process_page lib pdf_reader) N =
      .ok ((List.range N).map (fun i => inlinePageData i (ebytes i))) :=
    runPages_ok _ _ N (fun i hi => by rw [process_page, hex i hi])
  simp only [split_pdf]
  rw [if_neg hfn, if_neg (by simp [hext]), if_neg (by omega), if_neg hlen0]
  apply (wrapInline_ok_iff _ _).mpr
  simp only [split_pdf_body, hparse, hmeta, hpages]
  rw [if_neg (by omega), hrun]

theorem append_pageFilename_ne_empty (pre base : String) (i : Nat) :
    pre ++ s3PageFilename base i ≠ "" := by
  intro h
  have hlen := congrArg String.length h
  rw [s3PageFilename] at hlen
  simp only [String.length_append] at hlen
  have h4 : (".pdf" : String).length = 4 := rfl
  have h0 : ("" : String).length = 0 := rfl
  omega

theorem collectOutputKeys_map (g : Nat → S3PageTuple) (k : Nat → String) :
    ∀ l : List Nat, (∀ i ∈ l, (g i).output_key = some (k i) ∧ k i ≠ "") →
      collectOutputKeys (l.map g) = l.map k
  | [], _ => rfl
  | i :: rest, h => by
      have hi := h i (by simp)
      rw [List.map_cons, List.map_cons, collectOutputKeys, List.filterMap_cons]
      rw [hi.1]
      dsimp only
      rw [if_neg hi.2]
      rw [← collectOutputKeys_map g k rest (fun j hj => h j (by simp [hj]))]
      rfl

/-- The save-tuple produced by `s3_process_page` for page `i` under an
always-succeeding upload. -/
def s3SaveTuple (req : S3PDFRequest) (base : String) (i : Nat) (b : Bytes) :
    S3PageTuple :=
  { page_number := i + 1, filename := s3PageFilename base i,
    data := none, size := b.length,
    output_key := some (resolveOutputPre req ++ s3PageFilename base i) }

/-- The inline-tuple produced by `s3_process_page` for page `i` when
`save_to_s3` is false. -/
def s3InlineTuple (base : String) (i : Nat) (b : Bytes) : S3PageTuple :=
  { page_number := i + 1, filename := s3PageFilename base i,
    data := some (String.mk (b64encode b)), size := b.length,
    output_key := none }

theorem s3_process_page_save (c : S3Client) (lib : PdfLib Doc) (pdf_reader : Doc)
    (req : S3PDFRequest) (base : String) (i : Nat) (b : Bytes)
    (hex : lib.extractPage pdf_reader i = .ok b)
    (hsave : req.save_to_s3 = true)
    (hput : ∀ bk k d, c.putObject bk k d = .ok ()) :
    s3_process_page (some c) lib pdf_reader req base i = .ok (s3SaveTuple req base i b) := by
  rw [s3_process_page, hex]
  simp only [hsave, if_true, upload_to_s3, hput]
  rfl

theorem s3_process_page_inline (c : Option S3Client) (lib : PdfLib Doc)
    (pdf_reader : Doc) (req : S3PDFRequest) (base : String) (i : Nat) (b : Bytes)
    (hex : lib.extractPage pdf_reader i = .ok b)
    (hsave : req.save_to_s3 = false) :
    s3_process_page c lib pdf_reader req base i = .ok (s3InlineTuple base i b) := by
  rw [s3_process_page, hex]
  simp only [hsave, if_false]
  rfl

/-- Full success-path characterisation of the S3 endpoint in save mode. -/
theorem split_s3_ok_save (c : S3Client) (lib : PdfLib Doc) (pdf_reader : Doc)
    (req : S3PDFRequest) (content : Bytes) (N : Nat) (ebytes : Nat → Bytes)
    (hb : req.bucket ≠ "") (hk : req.key ≠ "")
    (hext : lowerEndsWithPdf req.key = true)
    (hget : c.getObject req.bucket req.key = .ok content)
    (hsize : content.length ≤ MAX_FILE_SIZE)
    (hparse : lib.parse content = .ok pdf_reader)
    (hmeta : lib.metadata pdf_reader = .ok ())
    (hpages : lib.pagesLen pdf_reader = N) (hmax : N ≤ MAX_PAGES)
    (hex : ∀ i, i < N → lib.extractPage pdf_reader i = .ok (ebytes i))
    (hsave : req.save_to_s3 = true)
    (hput : ∀ bk k d, c.putObject bk k d = .ok ()) :
    split_pdf_from_s3 (some c) lib req =
      .ok { status := "success",
            original_s3_location := "s3://" ++ req.bucket ++ "/" ++ req.key,
            total_pages := N, pages_split := decide (N > 1),
            files := [],
            s3_output_files := some ((List.range N).map (fun i =>
              resolveOutputPre req ++ s3PageFilename (baseFromKey req.key) i)) } := by
  have hrun : runPages
      (s3_process_page (some c) lib pdf_reader req (baseFromKey req.key)) N =
      .ok ((List.range N).map (fun i => s3SaveTuple req (baseFromKey req.key) i (ebytes i))) :=
    runPages_ok _ _ N (fun i hi =>
      s3_process_page_save c lib pdf_reader req _ i _ (hex i hi) hsave hput)
  have hkeys : collectOutputKeys ((List.range N).map (fun i =>
      s3SaveTuple req (baseFromKey req.key) i (ebytes i))) =
      (List.range N).map (fun i =>
        resolveOutputPre req ++ s3PageFilename (baseFromKey req.key) i) :=
    collectOutputKeys_map _ _ (List.range N)
      (fun i _ => ⟨rfl, append_pageFilename_ne_empty _ _ _⟩)
  rw [split_pdf_from_s3]
  rw [if_neg hb, if_neg hk, if_neg (by simp [hext])]
  apply (wrapS3_ok_iff _ _).mpr
  rw [split_pdf_from_s3_body, download_from_s3, hget]
  dsimp only
  rw [if_neg (by omega), hparse]
  dsimp only
  rw [hmeta]
  dsimp only
  rw [hpages]
  rw [if_neg (by omega), hrun]
  dsimp only
  rw [hsave]
  simp only [if_true, hkeys]

/-- Full success-path characterisation of the S3 endpoint in inline mode. -/
theorem split_s3_ok_inline (c : S3Client) (lib : PdfLib Doc) (pdf_reader : Doc)
    (req : S3PDFRequest) (content : Bytes) (N : Nat) (ebytes : Nat → Bytes)
    (hb : req.bucket ≠ "") (hk : req.key ≠ "")
    (hext : lowerEndsWithPdf req.key = true)
    (hget : c.getObject req.bucket req.key = .ok content)
    (hsize : content.length ≤ MAX_FILE_SIZE)
    (hparse : lib.parse content = .ok pdf_reader)
    (hmeta : lib.metadata pdf_reader = .ok ())
    (hpages : lib.pagesLen pdf_reader = N) (hmax : N ≤ MAX_PAGES)
    (hex : ∀ i, i < N → lib.extractPage pdf_reader i = .ok (ebytes i))
    (hsave : req.save_to_s3 = false) :
    split_pdf_from_s3 (some c) lib req =
      .ok { status := "success",
            original_s3_location := "s3://" ++ req.bucket ++ "/" ++ req.key,
            total_pages := N, pages_split := decide (N > 1),
            files := (List.range N).map (fun i =>
              { page_number := i + 1,
                filename := s3PageFilename (baseFromKey req.key) i,
                data := String.mk (b64encode (ebytes i)),
                size := (ebytes i).length }),
            s3_output_files := none } := by
  have hrun : runPages
      (s3_process_page (some c) lib pdf_reader req (baseFromKey req.key)) N =
      .ok ((List.range N).map (fun i =>
        s3InlineTuple (baseFromKey req.key) i (ebytes i))) :=
    runPages_ok _ _ N (fun i hi =>
      s3_process_page_inline (some c) lib pdf_reader req _ i _ (hex i hi) hsave)
  rw [split_pdf_from_s3]
  rw [if_neg hb, if_neg hk, if_neg (by simp [hext])]
  apply (wrapS3_ok_iff _ _).mpr
  rw [split_pdf_from_s3_body, download_from_s3, hget]
  dsimp only
  rw [if_neg (by omega), hparse]
  dsimp only
  rw [hmeta]
  dsimp only
  rw [hpages]
  rw [if_neg (by omega), hrun]
  dsimp only
  rw [hsave]
  simp only [if_false, tuplesToPageData, List.map_map]
  rfl

/-- The page-number column of an inline success response. -/
def inlineFilesNumbers (r : Except HTTPError SplitPDFResponse) :
    Except HTTPError (List Nat) :=
  Except.map (fun resp => resp.files.map PageData.page_number) r

/-- The number of inline files of an inline success response. -/
def inlineFilesCount (r : Except HTTPError SplitPDFResponse) :
    Except HTTPError Nat :=
  Except.map (fun resp => resp.files.length) r

/-- The filename column of an inline success response. -/
def inlineFilesNames (r : Except HTTPError SplitPDFResponse) :
    Except HTTPError (List String) :=
  Except.map (fun resp => resp.files.map PageData.filename) r

/-- The page-number column of an S3 success response. -/
def s3FilesNumbers (r : Except HTTPError S3SplitPDFResponse) :
    Except HTTPError (List Nat) :=
  Except.map (fun resp => resp.files.map PageData.page_number) r

/-- The number of inline files of an S3 success response. -/
def s3FilesCount (r : Except HTTPError S3SplitPDFResponse) :
    Except HTTPError Nat :=
  Except.map (fun resp => resp.files.length) r

/-- The inline files of an S3 success response. -/
def s3Files (r : Except HTTPError S3SplitPDFResponse) :
    Except HTTPError (List PageData) :=
  Except.map S3SplitPDFResponse.files r

/-- The output-key list of an S3 success response (`[]` when the field is
`None`). -/
def s3OutputKeysOf (r : Except HTTPError S3SplitPDFResponse) :
    Except HTTPError (List String) :=
  Except.map (fun resp => resp.s3_output_files.getD []) r

/-- The raw `s3_output_files` field of an S3 success response. -/
def s3OutputField (r : Except HTTPError S3SplitPDFResponse) :
    Except HTTPError (Option (List String)) :=
  Except.map S3SplitPDFResponse.s3_output_files r

/-- The number of output keys of an S3 success response. -/
def s3OutputCount (r : Except HTTPError S3SplitPDFResponse) :
    Except HTTPError Nat :=
  Except.map (fun resp => (resp.s3_output_files.getD []).length) r

/-- The list `[1, 2, ..., N]`. -/
def natsFrom1 (N : Nat) : List Nat :=
  (List.range N).map (fun i => i + 1)

/-- The inline filenames `page_1.pdf .. page_N.pdf`. -/
def inlineNames (N : Nat) : List String :=
  (List.range N).map (fun i => "page_" ++ toString (i + 1) ++ ".pdf")

/-- The S3 output keys `prefix ++ base_page_i.pdf` for `i = 1..N`. -/
def s3Names (req : S3PDFRequest) (N : Nat) : List String :=
  (List.range N).map (fun i =>
    resolveOutputPre req ++ s3PageFilename (baseFromKey req.key) i)

/-- A trivially succeeding page task returning its own index. -/
def f0 (i : Nat) : Except PyExc Nat := .ok i

/-- C1 (code bug): a 501-page document makes the inline endpoint raise
`HTTPException(422, "PDF has too many pages. Pages: 501, Max: 500")`, but
`split_pdf`'s generic `except Exception` (which lacks the
`except HTTPException: raise` the S3 endpoint has) swallows it and
re-raises it as HTTP 500 — contradicting the endpoint's own declared
`responses={422: ...}` documentation and the spec.  The S3 endpoint does
return 422.  No extraction is attempted in either endpoint (the oracle
here fails loudly on any extraction, and that failure never surfaces). -/
theorem C1_too_many_pages_swallowed_to_500 :
    split_pdf (noExtractLib 501) (some "doc.pdf") [37] =
      .error { status := 500,
               detail := "Error processing PDF: 422: PDF has too many pages. Pages: 501, Max: 500" } ∧
    split_pdf_from_s3 (some (stubS3 [37])) (noExtractLib 501)
        { bucket := "b", key := "doc.pdf" } =
      .error { status := 422,
               detail := "PDF has too many pages. Pages: 501, Max: 500" } := by
  constructor
  · rfl
  · rfl

/-- C2 (code bug): an unparsable buffer makes the `PdfReader` constructor
raise, and a metadata structural error makes the handler raise
`HTTPException(400, "Corrupted or invalid PDF file")`; the claim (and the
spec) requires a 400 in all four cases below, but the code returns 400 in
only one of them.  Inline endpoint: both cases are converted to 500 by the
generic `except Exception`.  S3 endpoint: the metadata 400 survives (it
has `except HTTPException: raise`), but a parse failure is still a 500. -/
theorem C2_invalid_pdf_status_codes :
    split_pdf badParseLib (some "doc.pdf") [37] =
      .error { status := 500, detail := "Error processing PDF: EOF marker not found" } ∧
    split_pdf badMetaLib (some "doc.pdf") [37] =
      .error { status := 500,
               detail := "Error processing PDF: 400: Corrupted or invalid PDF file" } ∧
    split_pdf_from_s3 (some (stubS3 [37])) badMetaLib { bucket := "b", key := "doc.pdf" } =
      .error { status := 400, detail := "Corrupted or invalid PDF file" } ∧
    split_pdf_from_s3 (some (stubS3 [37])) badParseLib { bucket := "b", key := "doc.pdf" } =
      .error { status := 500,
               detail := "Error processing PDF from S3: EOF marker not found" } := by
  refine ⟨rfl, rfl, rfl, rfl⟩

/-- C8: the scheduler runs the sequential loop exactly when the page count
is at most 10 and the gather fan-out exactly when it exceeds 10, and the
two branches return identical ordered result lists for every task family
and page count. -/
theorem C8_scheduler_threshold_and_equivalence (f : Nat → Except PyExc α) (n : Nat) :
    (n ≤ 10 → runPages f n = seqPages f n) ∧
    (n > 10 → runPages f n = gatherPages f n) ∧
    seqPages f n = gatherPages f n := by
  refine ⟨fun h => ?_, fun h => ?_, seqPages_eq_gatherPages f n⟩
  · rw [runPages, if_neg (by omega)]
  · rw [runPages, if_pos h]

/-- Witness for C8 at page counts 3 and 12. -/
theorem C8_witness :
    runPages f0 3 = seqPages f0 3 ∧
    runPages f0 12 = gatherPages f0 12 ∧
    seqPages f0 12 = gatherPages f0 12 ∧
    seqPages f0 3 = .ok [0, 1, 2] :=
  ⟨(C8_scheduler_threshold_and_equivalence f0 3).1 (by omega),
   (C8_scheduler_threshold_and_equivalence f0 12).2.1 (by omega),
   (C8_scheduler_threshold_and_equivalence f0 12).2.2,
   rfl⟩

/-- C3: in inline delivery (both endpoints), the reported `size` equals
the byte length of the original binary page content — the length of the
base64-decoded `data` — and (for the nonempty buffers a PDF serialiser
produces) never the length of the base64-encoded string itself. -/
theorem C3_size_is_decoded_byte_length (lib : PdfLib Doc) (pdf_reader : Doc)
    (s3c : Option S3Client) (req : S3PDFRequest) (base : String) (n : Nat)
    (b : Bytes) (hb : ∀ x ∈ b, x < 256) (hne : b ≠ [])
    (hex : lib.extractPage pdf_reader n = .ok b)
    (hsave : req.save_to_s3 = false) :
    process_page lib pdf_reader n = .ok (inlinePageData n b) ∧
    (inlinePageData n b).size = (b64decode (inlinePageData n b).data.data).length ∧
    (inlinePageData n b).size ≠ (inlinePageData n b).data.length ∧
    s3_process_page s3c lib pdf_reader req base n = .ok (s3InlineTuple base n b) ∧
    (s3InlineTuple base n b).size =
      (b64decode ((s3InlineTuple base n b).data.getD "").data).length ∧
    (s3InlineTuple base n b).size ≠ ((s3InlineTuple base n b).data.getD "").length := by
  refine ⟨?_, ?_, ?_, ?_, ?_, ?_⟩
  · rw [process_page, hex]
  · show b.length = (b64decode (b64encode b)).length
    rw [b64_roundtrip b hb]
  · show b.length ≠ (String.mk (b64encode b)).length
    exact fun h => b64encode_length_ne b hne h.symm
  · exact s3_process_page_inline s3c lib pdf_reader req base n b hex hsave
  · show b.length = (b64decode (b64encode b)).length
    rw [b64_roundtrip b hb]
  · show b.length ≠ (String.mk (b64encode b)).length
    exact fun h => b64encode_length_ne b hne h.symm

/-- Witness for C3 at a one-byte page buffer. -/
theorem C3_witness :
    process_page (okLib 1) () 0 = .ok (inlinePageData 0 [37]) ∧
    (inlinePageData 0 [37]).size =
      (b64decode (inlinePageData 0 [37]).data.data).length ∧
    (inlinePageData 0 [37]).size ≠ (inlinePageData 0 [37]).data.length ∧
    s3_process_page (some (stubS3 [37])) (okLib 1) ()
        { bucket := "b", key := "doc.pdf" } "doc" 0 =
      .ok (s3InlineTuple "doc" 0 [37]) ∧
    (s3InlineTuple "doc" 0 [37]).size =
      (b64decode ((s3InlineTuple "doc" 0 [37]).data.getD "").data).length ∧
    (s3InlineTuple "doc" 0 [37]).size ≠
      ((s3InlineTuple "doc" 0 [37]).data.getD "").length :=
  C3_size_is_decoded_byte_length (okLib 1) () (some (stubS3 [37]))
    { bucket := "b", key := "doc.pdf" } "doc" 0 [37]
    (by decide) (by decide) rfl rfl

/-- C4: every valid N-page document accepted by validation yields exactly
N page descriptors (inline and S3-inline modes) or N output locations
(S3 save mode), with page numbers exactly `1..N` in ascending source
order; the statement holds for every N, hence on both scheduler branches. -/
theorem C4_descriptor_count_and_order (lib : PdfLib Doc) (pdf_reader : Doc)
    (c : S3Client) (fname : String) (content : Bytes) (N : Nat)
    (ebytes : Nat → Bytes) (reqI reqS : S3PDFRequest)
    (hfn : fname ≠ "") (hext : lowerEndsWithPdf fname = true)
    (hsize : content.length ≤ MAX_FILE_SIZE) (hne : content ≠ [])
    (hparse : lib.parse content = .ok pdf_reader)
    (hmeta : lib.metadata pdf_reader = .ok ())
    (hpages : lib.pagesLen pdf_reader = N) (hmax : N ≤ MAX_PAGES)
    (hex : ∀ i, i < N → lib.extractPage pdf_reader i = .ok (ebytes i))
    (hbI : reqI.bucket ≠ "") (hkI : reqI.key ≠ "")
    (hextI : lowerEndsWithPdf reqI.key = true)
    (hgetI : c.getObject reqI.bucket reqI.key = .ok content)
    (hsaveI : reqI.save_to_s3 = false)
    (hbS : reqS.bucket ≠ "") (hkS : reqS.key ≠ "")
    (hextS : lowerEndsWithPdf reqS.key = true)
    (hgetS : c.getObject reqS.bucket reqS.key = .ok content)
    (hsaveS : reqS.save_to_s3 = true)
    (hput : ∀ bk k d, c.putObject bk k d = .ok ()) :
    inlineFilesCount (split_pdf lib (some fname) content) = .ok N ∧
    inlineFilesNumbers (split_pdf lib (some fname) content) = .ok (natsFrom1 N) ∧
    s3FilesCount (split_pdf_from_s3 (some c) lib reqI) = .ok N ∧
    s3FilesNumbers (split_pdf_from_s3 (some c) lib reqI) = .ok (natsFrom1 N) ∧
    s3OutputCount (split_pdf_from_s3 (some c) lib reqS) = .ok N := by
  rw [split_pdf_ok_of_valid lib pdf_reader fname content N ebytes
    hfn hext hsize hne hparse hmeta hpages hmax hex]
  rw [split_s3_ok_inline c lib pdf_reader reqI content N ebytes
    hbI hkI hextI hgetI hsize hparse hmeta hpages hmax hex hsaveI]
  rw [split_s3_ok_save c lib pdf_reader reqS content N ebytes
    hbS hkS hextS hgetS hsize hparse hmeta hpages hmax hex hsaveS hput]
  refine ⟨?_, ?_, ?_, ?_, ?_⟩ <;>
    simp [inlineFilesCount, inlineFilesNumbers, s3FilesCount, s3FilesNumbers,
      s3OutputCount, Except.map, natsFrom1, List.map_map, Function.comp,
      inlinePageData]

/-- Witness for C4 on a 3-page document. -/
theorem C4_witness :
    inlineFilesCount (split_pdf (okLib 3) (some "doc.pdf") [37]) = .ok 3 ∧
    inlineFilesNumbers (split_pdf (okLib 3) (some "doc.pdf") [37]) = .ok (natsFrom1 3) ∧
    s3FilesCount (split_pdf_from_s3 (some (stubS3 [37])) (okLib 3)
      { bucket := "b", key := "doc.pdf" }) = .ok 3 ∧
    s3FilesNumbers (split_pdf_from_s3 (some (stubS3 [37])) (okLib 3)
      { bucket := "b", key := "doc.pdf" }) = .ok (natsFrom1 3) ∧
    s3OutputCount (split_pdf_from_s3 (some (stubS3 [37])) (okLib 3)
      { bucket := "b", key := "doc.pdf", save_to_s3 := true }) = .ok 3 ∧
    natsFrom1 3 = [1, 2, 3] := by
  have h := C4_descriptor_count_and_order (okLib 3) () (stubS3 [37]) "doc.pdf"
    [37] 3 (fun _ => [37])
    { bucket := "b", key := "doc.pdf" }
    { bucket := "b", key := "doc.pdf", save_to_s3 := true }
    (by decide) rfl (by decide) (by decide) rfl rfl rfl (by decide)
    (fun i _ => rfl)
    (by decide) (by decide) rfl rfl rfl
    (by decide) (by decide) rfl rfl rfl
    (fun bk k d => rfl)
  exact ⟨h.1, h.2.1, h.2.2.1, h.2.2.2.1, h.2.2.2.2, rfl⟩

/-- C5 counterexample: a 0-byte object in object-store mode does not fail
with `EmptyInput`/400 — `split_pdf_from_s3` has no emptiness check, so the
empty buffer reaches pypdf, whose `EmptyFileError` is reported as a
generic 500. -/
theorem C5_counterexample :
    split_pdf_from_s3 (some (stubS3 [])) (pypdfLikeLib 1)
        { bucket := "b", key := "doc.pdf" } =
      .error { status := 500,
               detail := "Error processing PDF from S3: Cannot read an empty file" } := by
  rfl

/-- C5 (amended): a 0-byte upload fails with `EmptyInput`/400 in the
inline endpoint; the object-store endpoint has no emptiness check, and a
0-byte object instead fails at PDF parsing, reported as HTTP 500.  In
neither mode is a success result produced for 0-byte input. -/
theorem C5_empty_input_amended (lib : PdfLib Doc) (lib2 : PdfLib Doc2)
    (c : S3Client) (req : S3PDFRequest) (fname m : String)
    (hfn : fname ≠ "") (hext : lowerEndsWithPdf fname = true)
    (hb : req.bucket ≠ "") (hk : req.key ≠ "")
    (hkext : lowerEndsWithPdf req.key = true)
    (hget : c.getObject req.bucket req.key = .ok [])
    (hparse : lib2.parse [] = .error m) :
    split_pdf lib (some fname) [] =
      .error { status := 400, detail := "Empty file uploaded" } ∧
    split_pdf_from_s3 (some c) lib2 req =
      .error { status := 500, detail := "Error processing PDF from S3: " ++ m } := by
  constructor
  · simp only [split_pdf]
    rw [if_neg hfn, if_neg (by simp [hext])]
    simp
  · rw [split_pdf_from_s3]
    rw [if_neg hb, if_neg hk, if_neg (by simp [hkext])]
    rw [split_pdf_from_s3_body, download_from_s3, hget]
    dsimp only
    rw [if_neg (by decide), hparse]
    rfl

/-- Witness for C5 (amended) at concrete oracles. -/
theorem C5_witness :
    split_pdf (okLib 1) (some "doc.pdf") [] =
      .error { status := 400, detail := "Empty file uploaded" } ∧
    split_pdf_from_s3 (some (stubS3 [])) (pypdfLikeLib 1)
        { bucket := "b", key := "doc.pdf" } =
      .error { status := 500,
               detail := "Error processing PDF from S3: " ++ "Cannot read an empty file" } :=
  C5_empty_input_amended (okLib 1) (pypdfLikeLib 1) (stubS3 [])
    { bucket := "b", key := "doc.pdf" } "doc.pdf" "Cannot read an empty file"
    (by decide) rfl (by decide) (by decide) rfl rfl rfl

/-- The spec's concrete object-store scenario request: key
`docs/invoice.pdf`, save mode, output prefix `out/`. -/
def invoiceReq : S3PDFRequest :=
  { bucket := "my-bucket", key := "docs/invoice.pdf", save_to_s3 := true,
    output_pre := some "out/" }

/-- C7 counterexample: inline mode has a base name available
(`invoice.pdf`) yet names the single page plain `page_1.pdf`, not the
claimed `invoice_page_1.pdf`. -/
theorem C7_counterexample :
    split_pdf (okLib 1) (some "invoice.pdf") [37] =
      .ok { status := "success", original_filename := "invoice.pdf",
            total_pages := 1, pages_split := false,
            files := [{ page_number := 1, filename := "page_1.pdf",
                        data := "JQ==", size := 1 }] } ∧
    "page_1.pdf" ≠ "invoice_page_1.pdf" := by
  exact ⟨rfl, by decide⟩

/-- C7 (amended): inline mode always names pages plain `page_<n>.pdf`
(whatever the uploaded filename); object-store mode names them
`<base>_page_<n>.pdf` with base the key's last path segment with every
`".pdf"` occurrence removed, and in save mode the output key is
`output_prefix ++ filename` while `files` stays empty. -/
theorem C7_filenames_amended (lib : PdfLib Doc) (pdf_reader : Doc) (c : S3Client)
    (fname : String) (content : Bytes) (N : Nat) (ebytes : Nat → Bytes)
    (reqS : S3PDFRequest)
    (hfn : fname ≠ "") (hext : lowerEndsWithPdf fname = true)
    (hsize : content.length ≤ MAX_FILE_SIZE) (hne : content ≠ [])
    (hparse : lib.parse content = .ok pdf_reader)
    (hmeta : lib.metadata pdf_reader = .ok ())
    (hpages : lib.pagesLen pdf_reader = N) (hmax : N ≤ MAX_PAGES)
    (hex : ∀ i, i < N → lib.extractPage pdf_reader i = .ok (ebytes i))
    (hbS : reqS.bucket ≠ "") (hkS : reqS.key ≠ "")
    (hextS : lowerEndsWithPdf reqS.key = true)
    (hgetS : c.getObject reqS.bucket reqS.key = .ok content)
    (hsaveS : reqS.save_to_s3 = true)
    (hput : ∀ bk k d, c.putObject bk k d = .ok ()) :
    inlineFilesNames (split_pdf lib (some fname) content) = .ok (inlineNames N) ∧
    s3OutputKeysOf (split_pdf_from_s3 (some c) lib reqS) = .ok (s3Names reqS N) ∧
    s3Files (split_pdf_from_s3 (some c) lib reqS) = .ok [] := by
  rw [split_pdf_ok_of_valid lib pdf_reader fname content N ebytes
    hfn hext hsize hne hparse hmeta hpages hmax hex]
  rw [split_s3_ok_save c lib pdf_reader reqS content N ebytes
    hbS hkS hextS hgetS hsize hparse hmeta hpages hmax hex hsaveS hput]
  refine ⟨?_, ?_, ?_⟩ <;>
    simp [inlineFilesNames, s3OutputKeysOf, s3Files, Except.map, inlineNames,
      s3Names, List.map_map, Function.comp, inlinePageData]

/-- Witness for C7 (amended): the spec's concrete scenario — key
`docs/invoice.pdf`, prefix `out/`, 2 pages — yields output keys
`out/invoice_page_1.pdf`, `out/invoice_page_2.pdf` with `files` empty. -/
theorem C7_witness :
    inlineFilesNames (split_pdf (okLib 2) (some "invoice.pdf") [37]) =
      .ok (inlineNames 2) ∧
    s3OutputKeysOf (split_pdf_from_s3 (some (stubS3 [37])) (okLib 2) invoiceReq) =
      .ok (s3Names invoiceReq 2) ∧
    s3Files (split_pdf_from_s3 (some (stubS3 [37])) (okLib 2) invoiceReq) = .ok [] ∧
    s3Names invoiceReq 2 = ["out/invoice_page_1.pdf", "out/invoice_page_2.pdf"] ∧
    inlineNames 2 = ["page_1.pdf", "page_2.pdf"] := by
  have h := C7_filenames_amended (okLib 2) () (stubS3 [37]) "invoice.pdf" [37] 2
    (fun _ => [37]) invoiceReq
    (by decide) rfl (by decide) (by decide) rfl rfl rfl (by decide)
    (fun i _ => rfl)
    (by decide) (by decide) rfl rfl rfl (fun bk k d => rfl)
  exact ⟨h.1, h.2.1, h.2.2, rfl, rfl⟩

/-- C9: in the S3 endpoint's success responses, exactly one of `files`
and `s3_output_files` is populated per the requested mode: in save mode
`files = []` and there is one output key per page; in inline mode there
is one file per page and `s3_output_files` is the null field. -/
theorem C9_exactly_one_sequence_populated (lib : PdfLib Doc) (pdf_reader : Doc)
    (c : S3Client) (content : Bytes) (N : Nat) (ebytes : Nat → Bytes)
    (reqI reqS : S3PDFRequest)
    (hsize : content.length ≤ MAX_FILE_SIZE)
    (hparse : lib.parse content = .ok pdf_reader)
    (hmeta : lib.metadata pdf_reader = .ok ())
    (hpages : lib.pagesLen pdf_reader = N) (hmax : N ≤ MAX_PAGES)
    (hex : ∀ i, i < N → lib.extractPage pdf_reader i = .ok (ebytes i))
    (hbI : reqI.bucket ≠ "") (hkI : reqI.key ≠ "")
    (hextI : lowerEndsWithPdf reqI.key = true)
    (hgetI : c.getObject reqI.bucket reqI.key = .ok content)
    (hsaveI : reqI.save_to_s3 = false)
    (hbS : reqS.bucket ≠ "") (hkS : reqS.key ≠ "")
    (hextS : lowerEndsWithPdf reqS.key = true)
    (hgetS : c.getObject reqS.bucket reqS.key = .ok content)
    (hsaveS : reqS.save_to_s3 = true)
    (hput : ∀ bk k d, c.putObject bk k d = .ok ()) :
    s3Files (split_pdf_from_s3 (some c) lib reqS) = .ok [] ∧
    s3OutputCount (split_pdf_from_s3 (some c) lib reqS) = .ok N ∧
    s3FilesCount (split_pdf_from_s3 (some c) lib reqI) = .ok N ∧
    s3OutputField (split_pdf_from_s3 (some c) lib reqI) = .ok none := by
  rw [split_s3_ok_inline c lib pdf_reader reqI content N ebytes
    hbI hkI hextI hgetI hsize hparse hmeta hpages hmax hex hsaveI]
  rw [split_s3_ok_save c lib pdf_reader reqS content N ebytes
    hbS hkS hextS hgetS hsize hparse hmeta hpages hmax hex hsaveS hput]
  refine ⟨?_, ?_, ?_, ?_⟩ <;>
    simp [s3Files, s3OutputCount, s3FilesCount, s3OutputField, Except.map]

/-- Witness for C9 on a 2-page document in both save modes. -/
theorem C9_witness :
    s3Files (split_pdf_from_s3 (some (stubS3 [37])) (okLib 2)
      { bucket := "b", key := "doc.pdf", save_to_s3 := true }) = .ok [] ∧
    s3OutputCount (split_pdf_from_s3 (some (stubS3 [37])) (okLib 2)
      { bucket := "b", key := "doc.pdf", save_to_s3 := true }) = .ok 2 ∧
    s3FilesCount (split_pdf_from_s3 (some (stubS3 [37])) (okLib 2)
      { bucket := "b", key := "doc.pdf" }) = .ok 2 ∧
    s3OutputField (split_pdf_from_s3 (some (stubS3 [37])) (okLib 2)
      { bucket := "b", key := "doc.pdf" }) = .ok none :=
  C9_exactly_one_sequence_populated (okLib 2) () (stubS3 [37]) [37] 2
    (fun _ => [37])
    { bucket := "b", key := "doc.pdf" }
    { bucket := "b", key := "doc.pdf", save_to_s3 := true }
    (by decide) rfl rfl rfl (by decide) (fun i _ => rfl)
    (by decide) (by decide) rfl rfl rfl
    (by decide) (by decide) rfl rfl rfl
    (fun bk k d => rfl)

/-- C10: a structurally valid, non-empty-byte document with zero pages
passes validation in both endpoints and yields a success response with
`total_pages = 0`, an empty `files` list and `pages_split = false`. -/
theorem C10_zero_page_success (lib : PdfLib Doc) (pdf_reader : Doc)
    (c : S3Client) (fname : String) (content : Bytes) (reqI : S3PDFRequest)
    (hfn : fname ≠ "") (hext : lowerEndsWithPdf fname = true)
    (hsize : content.length ≤ MAX_FILE_SIZE) (hne : content ≠ [])
    (hparse : lib.parse content = .ok pdf_reader)
    (hmeta : lib.metadata pdf_reader = .ok ())
    (hpages : lib.pagesLen pdf_reader = 0)
    (hbI : reqI.bucket ≠ "") (hkI : reqI.key ≠ "")
    (hextI : lowerEndsWithPdf reqI.key = true)
    (hgetI : c.getObject reqI.bucket reqI.key = .ok content)
    (hsaveI : reqI.save_to_s3 = false) :
    split_pdf lib (some fname) content =
      .ok { status := "success", original_filename := fname, total_pages := 0,
            pages_split := false, files := [] } ∧
    split_pdf_from_s3 (some c) lib reqI =
      .ok { status := "success",
            original_s3_location := "s3://" ++ reqI.bucket ++ "/" ++ reqI.key,
            total_pages := 0, pages_split := false, files := [],
            s3_output_files := none } := by
  constructor
  · exact split_pdf_ok_of_valid lib pdf_reader fname content 0 (fun _ => [])
      hfn hext hsize hne hparse hmeta hpages (by decide)
      (fun i hi => absurd hi (by omega))
  · exact split_s3_ok_inline c lib pdf_reader reqI content 0 (fun _ => [])
      hbI hkI hextI hgetI hsize hparse hmeta hpages (by decide)
      (fun i hi => absurd hi (by omega)) hsaveI

/-- Witness for C10 at a concrete zero-page oracle. -/
theorem C10_witness :
    split_pdf (okLib 0) (some "doc.pdf") [37] =
      .ok { status := "success", original_filename := "doc.pdf", total_pages := 0,
            pages_split := false, files := [] } ∧
    split_pdf_from_s3 (some (stubS3 [37])) (okLib 0) { bucket := "b", key := "doc.pdf" } =
      .ok { status := "success", original_s3_location := "s3://" ++ "b" ++ "/" ++ "doc.pdf",
            total_pages := 0, pages_split := false, files := [],
            s3_output_files := none } :=
  C10_zero_page_success (okLib 0) () (stubS3 [37]) "doc.pdf" [37]
    { bucket := "b", key := "doc.pdf" }
    (by decide) rfl (by decide) (by decide) rfl rfl rfl
    (by decide) (by decide) rfl rfl rfl

theorem split_pdf_body_ok_pages_split (lib : PdfLib Doc) (fname : String)
    (content : Bytes) (resp : SplitPDFResponse)
    (h : split_pdf_body lib fname content = .ok resp) :
    resp.pages_split = decide (resp.total_pages > 1) := by
  rw [split_pdf_body] at h
  cases hp : lib.parse content with
  | error e =>
      rw [hp] at h
      exact absurd h (by simp)
  | ok pdf_reader =>
      rw [hp] at h
      dsimp only at h
      cases hm : lib.metadata pdf_reader with
      | error e =>
          rw [hm] at h
          exact absurd h (by simp)
      | ok u =>
          rw [hm] at h
          dsimp only at h
          split at h
          · exact absurd h (by simp)
          · split at h
            · exact absurd h (by simp)
            · cases h
              rfl

theorem split_pdf_ok_pages_split (lib : PdfLib Doc) (filename : Option String)
    (content : Bytes) (resp : SplitPDFResponse)
    (h : split_pdf lib filename content = .ok resp) :
    resp.pages_split = decide (resp.total_pages > 1) := by
  cases filename with
  | none =>
      rw [split_pdf] at h
      exact absurd h (by simp)
  | some fname =>
      rw [split_pdf] at h
      split at h
      · exact absurd h (by simp)
      · split at h
        · exact absurd h (by simp)
        · dsimp only at h
          split at h
          · exact absurd h (by simp)
          · split at h
            · exact absurd h (by simp)
            · rw [wrapInline_ok_iff] at h
              exact split_pdf_body_ok_pages_split lib fname content resp h

theorem split_s3_body_ok_pages_split (s3c : Option S3Client) (lib : PdfLib Doc)
    (req : S3PDFRequest) (resp : S3SplitPDFResponse)
    (h : split_pdf_from_s3_body s3c lib req = .ok resp) :
    resp.pages_split = decide (resp.total_pages > 1) := by
  rw [split_pdf_from_s3_body] at h
  cases hd : download_from_s3 s3c req.bucket req.key with
  | error e =>
      rw [hd] at h
      exact absurd h (by simp)
  | ok file_content =>
      rw [hd] at h
      dsimp only at h
      split at h
      · exact absurd h (by simp)
      · cases hp : lib.parse file_content with
        | error e =>
            rw [hp] at h
            exact absurd h (by simp)
        | ok pdf_reader =>
            rw [hp] at h
            dsimp only at h
            cases hm : lib.metadata pdf_reader with
            | error e =>
                rw [hm] at h
                exact absurd h (by simp)
            | ok u =>
                rw [hm] at h
                dsimp only at h
                split at h
                · exact absurd h (by simp)
                · split at h
                  · exact absurd h (by simp)
                  · split at h
                    · cases h
                      rfl
                    · cases h
                      rfl

theorem split_s3_ok_pages_split (s3c : Option S3Client) (lib : PdfLib Doc)
    (req : S3PDFRequest) (resp : S3SplitPDFResponse)
    (h : split_pdf_from_s3 s3c lib req = .ok resp) :
    resp.pages_split = decide (resp.total_pages > 1) := by
  cases s3c with
  | none =>
      rw [split_pdf_from_s3] at h
      exact absurd h (by simp)
  | some c =>
      rw [split_pdf_from_s3] at h
      split at h
      · exact absurd h (by simp)
      · split at h
        · exact absurd h (by simp)
        · split at h
          · exact absurd h (by simp)
          · rw [wrapS3_ok_iff] at h
            exact split_s3_body_ok_pages_split (some c) lib req resp h

/-- C6 counterexample: a zero-page document yields a success response in
which `total_pages = 0 ≠ 1` and yet `pages_split = false`, refuting
"`pages_split` is true for every total page count other than 1". -/
theorem C6_counterexample :
    split_pdf (okLib 0) (some "doc.pdf") [37] =
      .ok { status := "success", original_filename := "doc.pdf", total_pages := 0,
            pages_split := false, files := [] } ∧
    (0 : Nat) ≠ 1 ∧ false ≠ true := by
  exact ⟨rfl, by decide, by decide⟩

/-- C6 (amended): in every success response of either endpoint,
`pages_split` is true exactly when `total_pages > 1` — false both for
one-page and for zero-page documents. -/
theorem C6_pages_split_iff_gt_one (lib : PdfLib Doc) (filename : Option String)
    (content : Bytes) (resp : SplitPDFResponse) (s3c : Option S3Client)
    (req : S3PDFRequest) (resp2 : S3SplitPDFResponse) :
    (split_pdf lib filename content = .ok resp →
      resp.pages_split = decide (resp.total_pages > 1)) ∧
    (split_pdf_from_s3 s3c lib req = .ok resp2 →
      resp2.pages_split = decide (resp2.total_pages > 1)) :=
  ⟨split_pdf_ok_pages_split lib filename content resp,
   split_s3_ok_pages_split s3c lib req resp2⟩

/-- The inline success response for a 2-page well-behaved document. -/
def respW : SplitPDFResponse :=
  { status := "success", original_filename := "doc.pdf", total_pages := 2,
    pages_split := true, files := [inlinePageData 0 [37], inlinePageData 1 [37]] }

/-- The S3 inline-mode success response for a 1-page well-behaved document. -/
def resp2W : S3SplitPDFResponse :=
  { status := "success", original_s3_location := "s3://b/doc.pdf", total_pages := 1,
    pages_split := false,
    files := [{ page_number := 1, filename := "doc_page_1.pdf",
                data := "JQ==", size := 1 }],
    s3_output_files := none }

/-- Witness for C6 (amended) at concrete 2-page and 1-page responses. -/
theorem C6_witness :
    respW.pages_split = decide (respW.total_pages > 1) ∧
    resp2W.pages_split = decide (resp2W.total_pages > 1) :=
  ⟨(C6_pages_split_iff_gt_one (okLib 2) (some "doc.pdf") [37] respW
      (some (stubS3 [37])) { bucket := "b", key := "doc.pdf" } resp2W).1 rfl,
   (C6_pages_split_iff_gt_one (okLib 1) (some "doc.pdf") [37] respW
      (some (stubS3 [37])) { bucket := "b", key := "doc.pdf" } resp2W).2 rfl⟩

end PdfSplitter
